import Mathlib

/-!
Shallow embedding of the voice session engine of `useVoiceInput.ts`
(groq-voicebot): level meter, voice-activity detector, conversation gate,
transport message handlers and the streamed-response assembler.
All definitions are transcribed from the TypeScript source; times are in
milliseconds (`Nat`), loudness levels are rationals.
-/

namespace Voice

/-- Type `VoiceStatus` from the source: the single externally visible status. -/
inductive VoiceStatus where
  | idle | listening | recording | processing | speaking | error
deriving DecidableEq, Repr

/-- Type `VoiceMode` from the source. -/
inductive VoiceMode where
  | pushToTalk | handsFree
deriving DecidableEq, Repr

/-- Type `ConversationState` from the source. -/
inductive ConversationState where
  | waiting | active
deriving DecidableEq, Repr

/-- Chat roles (the source uses the string union `"user" | "assistant"`). -/
inductive Role where
  | user | assistant
deriving DecidableEq, Repr

/-- Type `ChatMessage` from the source (timestamps as `Date.now()` milliseconds). -/
structure ChatMessage where
  id : String
  role : Role
  content : String
  timestamp : Nat
deriving DecidableEq, Repr

/-- State of a `MediaRecorder` (`"recording"` vs `"inactive"`). -/
inductive RecState where
  | recording | inactive
deriving DecidableEq, Repr

/-- The mutable session state of the hook: the React state variables together
with the refs (`currentResponseRef`, VAD refs, `cooldownUntilRef`, websocket
open flag, recorder state). -/
structure VoiceState where
  status : VoiceStatus
  mode : VoiceMode
  conversationState : ConversationState
  isConnected : Bool
  transcription : String
  response : String
  error : Option String
  volume : ℚ
  chatHistory : List ChatMessage
  currentResponse : String
  isSpeaking : Bool
  silenceStart : Option Nat
  speechStart : Option Nat
  vadEnabled : Bool
  isRecording : Bool
  cooldownUntil : Nat
  wsOpen : Bool
  recorder : Option RecState
deriving DecidableEq, Repr

/-- Recognized VAD configuration (`DEFAULT_CONFIG` fields used by the engine). -/
structure Config where
  vadThreshold : ℚ
  silenceDuration : Nat
  speechMinDuration : Nat
deriving DecidableEq, Repr

/-- Constant `DEFAULT_CONFIG`: threshold 0.08, silence 1500 ms, min speech 150 ms. -/
def defaultConfig : Config :=
  { vadThreshold := mkRat 8 100, silenceDuration := 1500, speechMinDuration := 150 }

/-- Messages the client sends over the websocket. -/
inductive OutMsg where
  | endConversation
  | textQuery (text : String)
deriving DecidableEq, Repr

/-- Observable recording-lifecycle events (`MediaRecorder` start/stop calls). -/
inductive Event where
  | startRec | stopRec
deriving DecidableEq, Repr

/-! ### String primitives (JS `toLowerCase`, `trim`, `includes`, `indexOf`, `slice`) -/

/-- ASCII lower-casing of one character (the wake/end phrases are ASCII). -/
def lowerChar (c : Char) : Char :=
  if 'A' ≤ c ∧ c ≤ 'Z' then Char.ofNat (c.toNat + 32) else c

/-- JS `text.toLowerCase()`. -/
def lowerStr (s : String) : String := String.mk (s.data.map lowerChar)

/-- ASCII whitespace test used by `trim`. -/
def isWS (c : Char) : Bool := c = ' ' || c = '\t' || c = '\n' || c = '\r'

/-- Drop leading whitespace. -/
def dropWS : List Char → List Char
  | [] => []
  | c :: t => if isWS c then dropWS t else c :: t

/-- JS `text.trim()`: drop whitespace from both ends. -/
def trimStr (s : String) : String :=
  String.mk ((dropWS ((dropWS s.data).reverse)).reverse)

/-- Does `nd` occur at the head of `hay`? -/
def startsWith : List Char → List Char → Bool
  | [], _ => true
  | _ :: _, [] => false
  | a :: as, b :: bs => a == b && startsWith as bs

/-- JS `hay.indexOf(nd)`: index of the first occurrence of `nd` in `hay`. -/
def findSub (nd : List Char) : List Char → Option Nat
  | [] => if startsWith nd [] then some 0 else none
  | c :: t => if startsWith nd (c :: t) then some 0 else (findSub nd t).map (· + 1)

/-- JS `hay.includes(nd)`. -/
def strIncludes (hay nd : String) : Bool := (findSub nd.data hay.data).isSome

/-! ### Wake-word / end-phrase gate -/

/-- List `WAKE_PHRASES` from the source, in source order. -/
def WAKE_PHRASES : List String :=
  ["hey zed", "hey said", "hey set", "hey zedd", "hey zet", "a zed", "heyze"]

/-- List `END_PHRASES` from the source, in source order. -/
def END_PHRASES : List String :=
  ["thank you zed", "thanks zed", "thank you said", "thanks said", "thankyou zed"]

/-- Source `containsWakeWord`: some wake phrase occurs in the lower-cased, trimmed text. -/
def containsWakeWord (text : String) : Bool :=
  WAKE_PHRASES.any (fun phrase => strIncludes (trimStr (lowerStr text)) phrase)

/-- Source `containsEndPhrase`: some end phrase occurs in the lower-cased, trimmed text. -/
def containsEndPhrase (text : String) : Bool :=
  END_PHRASES.any (fun phrase => strIncludes (trimStr (lowerStr text)) phrase)

/-- Loop body of `extractAfterWakeWord`: first phrase (in list order) found in
the lower-cased text wins; the slice is taken from the original text. -/
def extractGo (text lower : String) : List String → String
  | [] => text
  | phrase :: rest =>
    match findSub phrase.data lower.data with
    | some idx => trimStr (String.mk (text.data.drop (idx + phrase.data.length)))
    | none => extractGo text lower rest

/-- Source `extractAfterWakeWord`: trailing text after the first matched wake phrase. -/
def extractAfterWakeWord (text : String) : String :=
  extractGo text (lowerStr text) WAKE_PHRASES

/-! ### Transcription handler (`ws.onmessage`, `case "transcription"`) -/

/-- A user chat message as built inline in the source
(`id = user-${Date.now()}`, `timestamp = new Date()`). -/
def userMsg (now : Nat) (content : String) : ChatMessage :=
  { id := "user-" ++ toString now, role := .user, content := content, timestamp := now }

/-- An assistant chat message as built inline in the source. -/
def assistantMsg (now : Nat) (content : String) : ChatMessage :=
  { id := "assistant-" ++ toString now, role := .assistant, content := content,
    timestamp := now }

/-- The `case "transcription"` branch of `ws.onmessage`: end-phrase check
first, then the wake-word gate in `waiting` state, else the active branch.
Returns the updated state and the messages sent over the websocket. -/
def handleTranscription (s : VoiceState) (now : Nat) (text : String) :
    VoiceState × List OutMsg :=
  if containsEndPhrase text then
    ({ s with conversationState := .waiting,
              transcription := "",
              response := "Goodbye! Say \x27Hey ZED\x27 when you need me.",
              status := .idle },
     if s.wsOpen then [OutMsg.endConversation] else [])
  else if s.conversationState = .waiting then
    if containsWakeWord text then
      let afterWake := extractAfterWakeWord text
      if afterWake ≠ "" ∧ afterWake.length > 2 then
        ({ s with conversationState := .active,
                  transcription := afterWake,
                  status := .processing,
                  chatHistory := s.chatHistory ++ [userMsg now afterWake],
                  currentResponse := "" },
         if s.wsOpen then [OutMsg.textQuery afterWake] else [])
      else
        ({ s with conversationState := .active,
                  transcription := "",
                  response := "I\x27m listening...",
                  status := .idle }, [])
    else
      ({ s with status := .idle }, [])
  else
    ({ s with transcription := text,
              status := .processing,
              chatHistory := s.chatHistory ++ [userMsg now text],
              currentResponse := "" }, [])

/-! ### Response handler (`ws.onmessage`, `case "response"`) -/

/-- One inbound `response` message: `done`, incremental `text`, optional
`full_text`, and the `has_audio` flag (absent modelled as `false`, matching
JS truthiness of `undefined`). -/
structure RespMsg where
  done : Bool
  text : String
  fullText : Option String
  hasAudio : Bool
deriving DecidableEq, Repr

/-- The `case "response"` branch: incremental messages append to the
accumulator and set status `speaking`; a terminal message promotes
`full_text || currentResponseRef.current` (when non-empty) to an assistant
chat message, clears the accumulator, and when no audio follows sets a
2000 ms cooldown and status `idle`. `||` is JS: an empty `full_text` falls
back to the accumulator. -/
def handleResponse (s : VoiceState) (now : Nat) (m : RespMsg) : VoiceState :=
  if m.done then
    let finalText :=
      match m.fullText with
      | some t => if t = "" then s.currentResponse else t
      | none => s.currentResponse
    let s1 :=
      if finalText ≠ "" then
        { s with response := finalText,
                 chatHistory := s.chatHistory ++ [assistantMsg now finalText] }
      else s
    let s2 := { s1 with currentResponse := "" }
    if !m.hasAudio then
      { s2 with cooldownUntil := now + 2000, status := .idle }
    else s2
  else
    let acc := s.currentResponse ++ m.text
    { s with currentResponse := acc, response := acc, status := .speaking }

/-! ### Public actions `sendText` and `clear` -/

/-- Action `sendText`: blank text is rejected up front; otherwise transcription,
response, status, history and the accumulator are mutated first, and only
then the websocket is consulted — when it is not open the error is set and
status becomes `error`, with no rollback of the earlier mutations. -/
def sendText (s : VoiceState) (now : Nat) (text : String) :
    VoiceState × List OutMsg :=
  if trimStr text = "" then (s, [])
  else
    let s1 := { s with transcription := text,
                       response := "",
                       status := .processing,
                       chatHistory := s.chatHistory ++ [userMsg now text],
                       currentResponse := "" }
    if s.wsOpen then (s1, [OutMsg.textQuery text])
    else ({ s1 with error := some "Not connected to server", status := .error }, [])

/-- Action `clear`: resets transcription, response, error, chat history and the
response accumulator. It touches nothing else. -/
def clear (s : VoiceState) : VoiceState :=
  { s with transcription := "", response := "", error := none,
           chatHistory := [], currentResponse := "" }

/-! ### Recording lifecycle -/

/-- Source `startRecordingInternal` (success path): re-entrant call while already
recording is a no-op; otherwise a fresh recorder starts, `isRecording` is
set, status becomes `recording` and the previous response is cleared. -/
def startRecInternal (s : VoiceState) : VoiceState × List Event :=
  if s.isRecording then (s, [])
  else
    ({ s with recorder := some .recording, isRecording := true,
              status := .recording, response := "" },
     [Event.startRec])

/-- Source `stopRecordingInternal`: a no-op unless a recording is in progress and a
recorder exists; `MediaRecorder.stop()` is only invoked while the recorder
state is `"recording"`, and synchronously moves it to `"inactive"`. -/
def stopRecInternal (s : VoiceState) : VoiceState × List Event :=
  if !s.isRecording || s.recorder.isNone then (s, [])
  else if s.recorder = some RecState.recording then
    ({ s with recorder := some RecState.inactive }, [Event.stopRec])
  else (s, [])

/-! ### The 50 ms VAD timer tick (`startVolumeMonitoring` interval body) -/

/-- One tick of the 20 Hz volume-monitoring interval: publishes the volume,
then the speech-detection branch (guarded by `canListen`), then the
silence-during-recording branch. `Option.getD 0` mirrors the JS truthiness
test `!speechStartRef.current` (absent and `0` behave alike). -/
def vadTick (cfg : Config) (s : VoiceState) (now : Nat) (vol : ℚ) :
    VoiceState × List Event :=
  let s1 := { s with volume := vol }
  let inCooldown := decide (now < s1.cooldownUntil)
  let canListen := s1.vadEnabled && !s1.isRecording && !inCooldown &&
                   !decide (s1.status = .processing) && !decide (s1.status = .speaking)
  let br1 : VoiceState × List Event :=
    if canListen then
      if cfg.vadThreshold < vol then
        let sa := { s1 with silenceStart := none }
        let tRaw := sa.speechStart.getD 0
        if tRaw = 0 then ({ sa with speechStart := some now }, [])
        else if cfg.speechMinDuration < now - tRaw then
          startRecInternal { sa with isSpeaking := true }
        else (sa, [])
      else ({ s1 with speechStart := none }, [])
    else (s1, [])
  let s2 := br1.1
  let br2 : VoiceState × List Event :=
    if s2.vadEnabled && s2.isRecording && s2.isSpeaking then
      if vol < cfg.vadThreshold then
        let uRaw := s2.silenceStart.getD 0
        if uRaw = 0 then ({ s2 with silenceStart := some now }, [])
        else if cfg.silenceDuration < now - uRaw then
          let r := stopRecInternal s2
          ({ r.1 with isSpeaking := false, silenceStart := none }, r.2)
        else (s2, [])
      else ({ s2 with silenceStart := none }, [])
    else (s2, [])
  (br2.1, br1.2 ++ br2.2)

/-- Runs `n` consecutive VAD ticks at a constant level `v`, 50 ms apart starting
at `t0` (tick `i` fires at `t0 + 50 * i`); events are concatenated in order. -/
def runUp (cfg : Config) (s : VoiceState) (t0 : Nat) (v : ℚ) : Nat → VoiceState × List Event
  | 0 => (s, [])
  | n + 1 =>
    let r := runUp cfg s t0 v n
    let r2 := vadTick cfg r.1 (t0 + 50 * n) v
    (r2.1, r.2 ++ r2.2)

/-! ### Level meter (`getVolume`) -/

/-- The mean square computed by `getVolume` before the final `Math.sqrt`:
`none` models a missing analyser (the function returns 0), `some data` the
byte frequency array; each byte is normalized by 255, squared, summed, and
divided by the array length. The level sample of the source is
`Real.sqrt` of this value. -/
def getVolumeSq : Option (List Nat) → ℚ
  | none => 0
  | some data => ((data.map (fun b : Nat => ((b : ℚ) / 255) ^ 2)).sum) / (data.length : ℚ)

/-! ### Concrete states used in witnesses and counterexamples -/

/-- The hands-free session right after mount: VAD enabled, listening,
websocket open, conversation waiting, no cooldown. -/
def initState : VoiceState :=
  { status := .listening, mode := .handsFree, conversationState := .waiting,
    isConnected := true, transcription := "", response := "", error := none,
    volume := 0, chatHistory := [], currentResponse := "", isSpeaking := false,
    silenceStart := none, speechStart := none, vadEnabled := true,
    isRecording := false, cooldownUntil := 0, wsOpen := true, recorder := none }

/-- State `initState` with an active conversation. -/
def activeInit : VoiceState := { initState with conversationState := .active }

/-- State `initState` while a VAD-initiated recording is in progress. -/
def recInit : VoiceState :=
  { initState with status := .recording, isRecording := true,
                   isSpeaking := true, recorder := some .recording }

/-- Conditions under which the VAD speech branch can run on a fresh
utterance at time `t0`: hands-free VAD enabled, no recording in progress,
out of cooldown, status neither processing nor speaking, and no pending
speech or speaking flag. -/
def Ready (s : VoiceState) (t0 : Nat) : Prop :=
  s.vadEnabled = true ∧ s.isRecording = false ∧ s.isSpeaking = false ∧
  s.speechStart = none ∧ s.cooldownUntil ≤ t0 ∧
  s.status ≠ .processing ∧ s.status ≠ .speaking

/-- A hands-free recording in progress with no pending silence window. -/
def RecordingActive (s : VoiceState) : Prop :=
  s.vadEnabled = true ∧ s.isRecording = true ∧ s.isSpeaking = true ∧
  s.recorder = some RecState.recording ∧ s.silenceStart = none

/-- Sequential application of incremental (non-terminal) response tokens. -/
def feedTokens (s : VoiceState) (now : Nat) (tokens : List String) : VoiceState :=
  tokens.foldl
    (fun st tok => handleResponse st now
      { done := false, text := tok, fullText := none, hasAudio := false }) s

/-! ## Theorems -/

/-- C1: a transcription whose lower-cased text contains both an end phrase
and a wake phrase always takes the end branch (checked first): the
conversation ends (state `waiting`, the end signal is the only outbound
message, status `idle`) and the wake branch never fires — no activation and
no query dispatch. -/
theorem endPhrase_priority (s : VoiceState) (now : Nat) (text : String)
    (hEnd : containsEndPhrase text = true) (_hWake : containsWakeWord text = true)
    (hWs : s.wsOpen = true) :
    (handleTranscription s now text).1.conversationState = ConversationState.waiting ∧
    (handleTranscription s now text).2 = [OutMsg.endConversation] ∧
    (handleTranscription s now text).1.status = VoiceStatus.idle ∧
    (∀ q : String, OutMsg.textQuery q ∉ (handleTranscription s now text).2) := by
  simp [handleTranscription, hEnd, hWs]

/-- Witness for C1 at a concrete farewell containing a wake phrase, from an
active conversation. -/
theorem endPhrase_priority_witness :
    (handleTranscription activeInit 7 "thank you zed hey zed").1.conversationState
        = ConversationState.waiting ∧
    (handleTranscription activeInit 7 "thank you zed hey zed").2
        = [OutMsg.endConversation] ∧
    (handleTranscription activeInit 7 "thank you zed hey zed").1.status
        = VoiceStatus.idle ∧
    (∀ q : String,
        OutMsg.textQuery q ∉ (handleTranscription activeInit 7 "thank you zed hey zed").2) :=
  endPhrase_priority activeInit 7 "thank you zed hey zed" (by decide) (by decide) rfl

/-- C2: the VAD tick emits a recording start only from a state where VAD is
enabled, no recording is in progress, the cooldown has expired
(`cooldownUntil ≤ now`), and the status is neither `processing` nor
`speaking`. -/
theorem vad_start_eligibility (cfg : Config) (s : VoiceState) (now : Nat) (vol : ℚ)
    (h : Event.startRec ∈ (vadTick cfg s now vol).2) :
    s.vadEnabled = true ∧ s.isRecording = false ∧ s.cooldownUntil ≤ now ∧
    s.status ≠ VoiceStatus.processing ∧ s.status ≠ VoiceStatus.speaking := by
  by_cases hc : (s.vadEnabled && !s.isRecording && !(decide (now < s.cooldownUntil)) &&
      !decide (s.status = VoiceStatus.processing) &&
      !decide (s.status = VoiceStatus.speaking)) = true
  · simp only [Bool.and_eq_true, Bool.not_eq_true', decide_eq_false_iff_not,
      decide_eq_true_eq] at hc
    obtain ⟨⟨⟨⟨h1, h2⟩, h3⟩, h4⟩, h5⟩ := hc
    refine ⟨h1, by simpa using h2, by omega, h4, h5⟩
  · exfalso
    simp only [vadTick, startRecInternal, stopRecInternal, hc, Bool.false_eq_true,
      if_false, List.nil_append] at h
    split_ifs at h <;> simp_all

/-- Witness for C2: a loud tick past the debounce window in an eligible
state actually starts a recording. -/
theorem vad_start_eligibility_witness :
    initState.vadEnabled = true ∧ initState.isRecording = false ∧
    initState.cooldownUntil ≤ 300 ∧
    initState.status ≠ VoiceStatus.processing ∧
    initState.status ≠ VoiceStatus.speaking :=
  vad_start_eligibility defaultConfig { initState with speechStart := some 100 }
    300 (mkRat 1 10) (by decide)

/-- C5: in `waiting` state, a transcription with a wake phrase (and no end
phrase) activates the conversation; the payload is the trailing text after
the matched wake phrase (`extractAfterWakeWord`): when it is longer than 2
characters it is appended as a user chat message and dispatched as a text
query, otherwise nothing is appended or dispatched (acknowledge-only). -/
theorem wake_activation (s : VoiceState) (now : Nat) (text : String)
    (hconv : s.conversationState = ConversationState.waiting)
    (hEnd : containsEndPhrase text = false)
    (hWake : containsWakeWord text = true)
    (hWs : s.wsOpen = true) :
    (handleTranscription s now text).1.conversationState = ConversationState.active ∧
    (2 < (extractAfterWakeWord text).length →
      (handleTranscription s now text).1.chatHistory
          = s.chatHistory ++ [userMsg now (extractAfterWakeWord text)] ∧
      (handleTranscription s now text).2
          = [OutMsg.textQuery (extractAfterWakeWord text)] ∧
      (handleTranscription s now text).1.transcription = extractAfterWakeWord text ∧
      (handleTranscription s now text).1.status = VoiceStatus.processing) ∧
    (¬ 2 < (extractAfterWakeWord text).length →
      (handleTranscription s now text).1.chatHistory = s.chatHistory ∧
      (handleTranscription s now text).2 = [] ∧
      (handleTranscription s now text).1.status = VoiceStatus.idle) := by
  by_cases hl : 2 < (extractAfterWakeWord text).length
  · have hne : extractAfterWakeWord text ≠ "" := by
      intro h0
      rw [h0] at hl
      simp [String.length] at hl
    simp [handleTranscription, hEnd, hconv, hWake, hWs, hl, hne]
  · simp only [handleTranscription, hEnd, hconv, hWake, hWs]
    simp [hl]

/-- Witness for C5: "hey zed what is variance" activates and dispatches
"what is variance". -/
theorem wake_activation_witness :
    (handleTranscription initState 7 "hey zed what is variance").1.conversationState
        = ConversationState.active ∧
    (2 < (extractAfterWakeWord "hey zed what is variance").length →
      (handleTranscription initState 7 "hey zed what is variance").1.chatHistory
          = initState.chatHistory
              ++ [userMsg 7 (extractAfterWakeWord "hey zed what is variance")] ∧
      (handleTranscription initState 7 "hey zed what is variance").2
          = [OutMsg.textQuery (extractAfterWakeWord "hey zed what is variance")] ∧
      (handleTranscription initState 7 "hey zed what is variance").1.transcription
          = extractAfterWakeWord "hey zed what is variance" ∧
      (handleTranscription initState 7 "hey zed what is variance").1.status
          = VoiceStatus.processing) ∧
    (¬ 2 < (extractAfterWakeWord "hey zed what is variance").length →
      (handleTranscription initState 7 "hey zed what is variance").1.chatHistory
          = initState.chatHistory ∧
      (handleTranscription initState 7 "hey zed what is variance").2 = [] ∧
      (handleTranscription initState 7 "hey zed what is variance").1.status
          = VoiceStatus.idle) :=
  wake_activation initState 7 "hey zed what is variance" rfl (by decide) (by decide) rfl

/-- Folding string append from any seed factors through the empty seed. -/
lemma strFoldl_append (ts : List String) : ∀ a : String,
    ts.foldl (· ++ ·) a = a ++ ts.foldl (· ++ ·) "" := by
  induction ts with
  | nil => intro a; simp
  | cons t ts ih =>
    intro a
    simp only [List.foldl]
    rw [ih (a ++ t), ih ("" ++ t)]
    simp [String.append_assoc]

/-- Lemma: `String.join` peels its head token. -/
lemma strJoin_cons (t : String) (ts : List String) :
    String.join (t :: ts) = t ++ String.join ts := by
  simp only [String.join, List.foldl]
  rw [strFoldl_append ts ("" ++ t)]
  simp

/-- Incremental response tokens accumulate left-to-right in
`currentResponse` and never touch the chat history. -/
lemma feedTokens_spec (now : Nat) : ∀ (tokens : List String) (s : VoiceState),
    (feedTokens s now tokens).currentResponse
        = s.currentResponse ++ String.join tokens ∧
    (feedTokens s now tokens).chatHistory = s.chatHistory := by
  intro tokens
  induction tokens with
  | nil => intro s; simp [feedTokens, String.join]
  | cons t ts ih =>
    intro s
    have hstep : feedTokens s now (t :: ts)
        = feedTokens (handleResponse s now
            { done := false, text := t, fullText := none, hasAudio := false }) now ts := rfl
    rw [hstep]
    obtain ⟨ih1, ih2⟩ := ih (handleResponse s now
      { done := false, text := t, fullText := none, hasAudio := false })
    constructor
    · rw [ih1]
      simp [handleResponse, strJoin_cons, String.append_assoc]
    · rw [ih2]
      simp [handleResponse]

/-- C4: on a terminal response event the promoted assistant message content
is the non-empty server-supplied `full_text`, and otherwise the
concatenation of all incremental tokens of the turn; when the terminal
event carries `has_audio = false`, status becomes `idle` and the cooldown
is set to 2000 ms after the current time. The accumulator is reset in every
case. -/
theorem response_terminal_promotion (s : VoiceState) (now : Nat)
    (tokens : List String) (ft : Option String) (ha : Bool)
    (h0 : s.currentResponse = "") :
    (∀ t : String, ft = some t → t ≠ "" →
      (handleResponse (feedTokens s now tokens) now
          { done := true, text := "", fullText := ft, hasAudio := ha }).chatHistory
        = s.chatHistory ++ [assistantMsg now t]) ∧
    (ft = none → String.join tokens ≠ "" →
      (handleResponse (feedTokens s now tokens) now
          { done := true, text := "", fullText := ft, hasAudio := ha }).chatHistory
        = s.chatHistory ++ [assistantMsg now (String.join tokens)]) ∧
    (ha = false →
      (handleResponse (feedTokens s now tokens) now
          { done := true, text := "", fullText := ft, hasAudio := ha }).status
          = VoiceStatus.idle ∧
      (handleResponse (feedTokens s now tokens) now
          { done := true, text := "", fullText := ft, hasAudio := ha }).cooldownUntil
          = now + 2000) ∧
    (handleResponse (feedTokens s now tokens) now
        { done := true, text := "", fullText := ft, hasAudio := ha }).currentResponse
      = "" := by
  have hcr : (feedTokens s now tokens).currentResponse = String.join tokens := by
    rw [(feedTokens_spec now tokens s).1, h0]
    simp
  have hch : (feedTokens s now tokens).chatHistory = s.chatHistory := by
    exact (feedTokens_spec now tokens s).2
  refine ⟨?_, ?_, ?_, ?_⟩
  · intro t hft hne
    subst hft
    cases ha <;> simp [handleResponse, hne, hch]
  · intro hft hne
    subst hft
    cases ha <;> simp [handleResponse, hcr, hne, hch]
  · intro hha
    subst hha
    constructor <;> simp [handleResponse]
  · cases ha <;> simp [handleResponse]

/-- Witness for C4: tokens "Var", "iance" and a terminal event without
`full_text` and without audio promote "Variance", set status `idle` and a
2000 ms cooldown. -/
theorem response_terminal_promotion_witness :
    (∀ t : String, (none : Option String) = some t → t ≠ "" →
      (handleResponse (feedTokens initState 9 ["Var", "iance"]) 9
          { done := true, text := "", fullText := none, hasAudio := false }).chatHistory
        = initState.chatHistory ++ [assistantMsg 9 t]) ∧
    ((none : Option String) = none → String.join ["Var", "iance"] ≠ "" →
      (handleResponse (feedTokens initState 9 ["Var", "iance"]) 9
          { done := true, text := "", fullText := none, hasAudio := false }).chatHistory
        = initState.chatHistory ++ [assistantMsg 9 (String.join ["Var", "iance"])]) ∧
    (false = false →
      (handleResponse (feedTokens initState 9 ["Var", "iance"]) 9
          { done := true, text := "", fullText := none, hasAudio := false }).status
          = VoiceStatus.idle ∧
      (handleResponse (feedTokens initState 9 ["Var", "iance"]) 9
          { done := true, text := "", fullText := none, hasAudio := false }).cooldownUntil
          = 9 + 2000) ∧
    (handleResponse (feedTokens initState 9 ["Var", "iance"]) 9
        { done := true, text := "", fullText := none, hasAudio := false }).currentResponse
      = "" :=
  response_terminal_promotion initState 9 ["Var", "iance"] none false rfl

/-- C6: in `waiting` state, a transcription with neither a wake phrase nor
an end phrase changes nothing except the status, which reverts to `idle`:
nothing is dispatched, no chat message is appended, the conversation stays
`waiting`. -/
theorem waiting_ignores_non_wake (s : VoiceState) (now : Nat) (text : String)
    (hconv : s.conversationState = ConversationState.waiting)
    (hEnd : containsEndPhrase text = false)
    (hWake : containsWakeWord text = false) :
    (handleTranscription s now text).2 = [] ∧
    (handleTranscription s now text).1.chatHistory = s.chatHistory ∧
    (handleTranscription s now text).1.conversationState = ConversationState.waiting ∧
    (handleTranscription s now text).1.status = VoiceStatus.idle ∧
    handleTranscription s now text = ({ s with status := VoiceStatus.idle }, []) := by
  simp [handleTranscription, hEnd, hconv, hWake]

/-- Witness for C6 on a plain utterance. -/
theorem waiting_ignores_non_wake_witness :
    (handleTranscription initState 7 "hello world").2 = [] ∧
    (handleTranscription initState 7 "hello world").1.chatHistory
        = initState.chatHistory ∧
    (handleTranscription initState 7 "hello world").1.conversationState
        = ConversationState.waiting ∧
    (handleTranscription initState 7 "hello world").1.status = VoiceStatus.idle ∧
    handleTranscription initState 7 "hello world"
        = ({ initState with status := VoiceStatus.idle }, []) :=
  waiting_ignores_non_wake initState 7 "hello world" rfl (by decide) (by decide)

/-- A first above-threshold tick in an eligible state only records the
speech-start timestamp. -/
lemma vadTick_above_first (cfg : Config) (s : VoiceState) (now : Nat) (v : ℚ)
    (hen : s.vadEnabled = true) (hrec : s.isRecording = false)
    (hcd : ¬ now < s.cooldownUntil) (hp : ¬ s.status = VoiceStatus.processing)
    (hsp : ¬ s.status = VoiceStatus.speaking) (hss : s.speechStart = none)
    (hv : cfg.vadThreshold < v) :
    vadTick cfg s now v
      = ({ s with volume := v, silenceStart := none, speechStart := some now }, []) := by
  simp [vadTick, hen, hrec, hcd, hp, hsp, hss, hv]

/-- An above-threshold tick within the debounce window (elapsed time not
strictly beyond `speechMinDuration`) changes nothing but the volume and the
silence marker. -/
lemma vadTick_above_pending (cfg : Config) (s : VoiceState) (now : Nat) (v : ℚ)
    (t0 : Nat) (hen : s.vadEnabled = true) (hrec : s.isRecording = false)
    (hcd : ¬ now < s.cooldownUntil) (hp : ¬ s.status = VoiceStatus.processing)
    (hsp : ¬ s.status = VoiceStatus.speaking) (hss : s.speechStart = some t0)
    (ht0 : ¬ t0 = 0) (hv : cfg.vadThreshold < v)
    (hlt : ¬ cfg.speechMinDuration < now - t0) :
    vadTick cfg s now v = ({ s with volume := v, silenceStart := none }, []) := by
  simp [vadTick, hen, hrec, hcd, hp, hsp, hss, ht0, hv, hlt]

/-- The above-threshold tick whose elapsed time strictly exceeds
`speechMinDuration` starts the recording. -/
lemma vadTick_above_start (cfg : Config) (s : VoiceState) (now : Nat) (v : ℚ)
    (t0 : Nat) (hen : s.vadEnabled = true) (hrec : s.isRecording = false)
    (hcd : ¬ now < s.cooldownUntil) (hp : ¬ s.status = VoiceStatus.processing)
    (hsp : ¬ s.status = VoiceStatus.speaking) (hss : s.speechStart = some t0)
    (ht0 : ¬ t0 = 0) (hv : cfg.vadThreshold < v)
    (hgt : cfg.speechMinDuration < now - t0) :
    vadTick cfg s now v
      = ({ s with volume := v, silenceStart := none, isSpeaking := true,
                  recorder := some RecState.recording, isRecording := true,
                  status := VoiceStatus.recording, response := "" },
         [Event.startRec]) := by
  have hnv : ¬ v < cfg.vadThreshold := lt_asymm hv
  simp [vadTick, startRecInternal, hen, hrec, hcd, hp, hsp, hss, ht0, hv, hgt, hnv]

/-- A sub-threshold tick in an eligible non-recording state discards any
pending speech start. -/
lemma vadTick_low_idle (cfg : Config) (s : VoiceState) (now : Nat) (v : ℚ)
    (hen : s.vadEnabled = true) (hrec : s.isRecording = false)
    (hcd : ¬ now < s.cooldownUntil) (hp : ¬ s.status = VoiceStatus.processing)
    (hsp : ¬ s.status = VoiceStatus.speaking) (hv : ¬ cfg.vadThreshold < v) :
    vadTick cfg s now v = ({ s with volume := v, speechStart := none }, []) := by
  simp [vadTick, hen, hrec, hcd, hp, hsp, hv]

/-- The first sub-threshold tick while recording only records the
silence-start timestamp. -/
lemma vadTick_silent_first (cfg : Config) (s : VoiceState) (now : Nat) (v : ℚ)
    (hen : s.vadEnabled = true) (hrec : s.isRecording = true)
    (hspk : s.isSpeaking = true) (hss : s.silenceStart = none)
    (hv : v < cfg.vadThreshold) :
    vadTick cfg s now v = ({ s with volume := v, silenceStart := some now }, []) := by
  simp [vadTick, hen, hrec, hspk, hss, hv]

/-- A sub-threshold tick while recording within the silence window changes
only the volume. -/
lemma vadTick_silent_pending (cfg : Config) (s : VoiceState) (now : Nat) (v : ℚ)
    (u : Nat) (hen : s.vadEnabled = true) (hrec : s.isRecording = true)
    (hspk : s.isSpeaking = true) (hss : s.silenceStart = some u)
    (hu : ¬ u = 0) (hv : v < cfg.vadThreshold)
    (hlt : ¬ cfg.silenceDuration < now - u) :
    vadTick cfg s now v = ({ s with volume := v }, []) := by
  simp [vadTick, hen, hrec, hspk, hss, hu, hv, hlt]

/-- The sub-threshold tick whose elapsed silence strictly exceeds
`silenceDuration` stops the recording exactly once. -/
lemma vadTick_silent_stop (cfg : Config) (s : VoiceState) (now : Nat) (v : ℚ)
    (u : Nat) (hen : s.vadEnabled = true) (hrec : s.isRecording = true)
    (hspk : s.isSpeaking = true) (hss : s.silenceStart = some u)
    (hu : ¬ u = 0) (hv : v < cfg.vadThreshold)
    (hgt : cfg.silenceDuration < now - u)
    (hmr : s.recorder = some RecState.recording) :
    vadTick cfg s now v
      = ({ s with volume := v, recorder := some RecState.inactive,
                  isSpeaking := false, silenceStart := none },
         [Event.stopRec]) := by
  simp [vadTick, stopRecInternal, hen, hrec, hspk, hss, hu, hv, hgt, hmr]

/-- After the recorder was stopped (recording flag still set, speaking flag
cleared) a tick changes only the volume and emits nothing. -/
lemma vadTick_post_stop (cfg : Config) (s : VoiceState) (now : Nat) (v : ℚ)
    (hrec : s.isRecording = true) (hspk : s.isSpeaking = false) :
    vadTick cfg s now v = ({ s with volume := v }, []) := by
  simp [vadTick, hrec, hspk]

/-- One unfolding step of `runUp`. -/
lemma runUp_succ (cfg : Config) (s : VoiceState) (t0 : Nat) (v : ℚ) (n : Nat) :
    runUp cfg s t0 v (n + 1)
      = ((vadTick cfg (runUp cfg s t0 v n).1 (t0 + 50 * n) v).1,
         (runUp cfg s t0 v n).2
           ++ (vadTick cfg (runUp cfg s t0 v n).1 (t0 + 50 * n) v).2) := rfl

/-- Run lemma: through any above-threshold run whose every tick has elapsed
time within `speechMinDuration`, the VAD only holds the pending speech
start and emits nothing. -/
lemma runUp_above_pending (cfg : Config) (s : VoiceState) (t0 : Nat) (v : ℚ)
    (hR : Ready s t0) (ht0 : 0 < t0) (hv : cfg.vadThreshold < v) :
    ∀ n : Nat, (∀ k, k ≤ n → 50 * k ≤ cfg.speechMinDuration) →
      runUp cfg s t0 v (n + 1)
        = ({ s with volume := v, silenceStart := none, speechStart := some t0 }, []) := by
  obtain ⟨hen, hrec, _hspk, hss, hcd, hp, hsp⟩ := hR
  intro n
  induction n with
  | zero =>
    intro _
    have h1 := vadTick_above_first cfg s (t0 + 50 * 0) v hen hrec
      (Nat.not_lt.mpr (hcd.trans (Nat.le_add_right t0 (50 * 0)))) hp hsp hss hv
    rw [runUp_succ]
    show ((vadTick cfg s (t0 + 50 * 0) v).1, [] ++ (vadTick cfg s (t0 + 50 * 0) v).2) = _
    rw [h1]
    simp
  | succ n ih =>
    intro hk
    have hprev := ih (fun k hk' => hk k (Nat.le_succ_of_le hk'))
    have h2 := vadTick_above_pending cfg
      { s with volume := v, silenceStart := none, speechStart := some t0 }
      (t0 + 50 * (n + 1)) v t0 hen hrec
      (Nat.not_lt.mpr (hcd.trans (Nat.le_add_right t0 (50 * (n + 1))))) hp hsp rfl
      (by omega) hv (by have h' := hk (n + 1) (Nat.le_refl _); omega)
    rw [runUp_succ, hprev]
    dsimp only
    rw [h2]
    simp

/-- Run lemma: the first above-threshold tick with elapsed time strictly
beyond `speechMinDuration` emits exactly one recording start. -/
lemma runUp_above_start (cfg : Config) (s : VoiceState) (t0 : Nat) (v : ℚ)
    (hR : Ready s t0) (ht0 : 0 < t0) (hv : cfg.vadThreshold < v)
    (n : Nat) (hk : ∀ k, k ≤ n → 50 * k ≤ cfg.speechMinDuration)
    (hgt : cfg.speechMinDuration < 50 * (n + 1)) :
    runUp cfg s t0 v (n + 2)
      = ({ s with volume := v, silenceStart := none, speechStart := some t0,
                  isSpeaking := true, recorder := some RecState.recording,
                  isRecording := true, status := VoiceStatus.recording,
                  response := "" },
         [Event.startRec]) := by
  obtain ⟨hen, hrec, hspk, hss, hcd, hp, hsp⟩ := hR
  have hprev := runUp_above_pending cfg s t0 v ⟨hen, hrec, hspk, hss, hcd, hp, hsp⟩
    ht0 hv n hk
  have h3 := vadTick_above_start cfg
    { s with volume := v, silenceStart := none, speechStart := some t0 }
    (t0 + 50 * (n + 1)) v t0 hen hrec
    (Nat.not_lt.mpr (hcd.trans (Nat.le_add_right t0 (50 * (n + 1))))) hp hsp rfl
    (by omega) hv (by omega)
  rw [runUp_succ, hprev]
  dsimp only
  rw [h3]
  simp

/-- Run lemma: through any sub-threshold run over an active recording whose
every tick has elapsed silence within `silenceDuration`, the recorder keeps
running and nothing is emitted. -/
lemma runUp_silent_pending (cfg : Config) (s : VoiceState) (t0 : Nat) (v : ℚ)
    (hRec : RecordingActive s) (ht0 : 0 < t0) (hv : v < cfg.vadThreshold) :
    ∀ n : Nat, (∀ k, k ≤ n → 50 * k ≤ cfg.silenceDuration) →
      runUp cfg s t0 v (n + 1)
        = ({ s with volume := v, silenceStart := some t0 }, []) := by
  obtain ⟨hen, hrec, hspk, _hmr, hss⟩ := hRec
  intro n
  induction n with
  | zero =>
    intro _
    have h1 := vadTick_silent_first cfg s (t0 + 50 * 0) v hen hrec hspk hss hv
    rw [runUp_succ]
    show ((vadTick cfg s (t0 + 50 * 0) v).1, [] ++ (vadTick cfg s (t0 + 50 * 0) v).2) = _
    rw [h1]
    simp
  | succ n ih =>
    intro hk
    have hprev := ih (fun k hk' => hk k (Nat.le_succ_of_le hk'))
    have h2 := vadTick_silent_pending cfg
      { s with volume := v, silenceStart := some t0 }
      (t0 + 50 * (n + 1)) v t0 hen hrec hspk rfl (by omega) hv
      (by have h' := hk (n + 1) (Nat.le_refl _); omega)
    rw [runUp_succ, hprev]
    dsimp only
    rw [h2]
    simp

/-- Run lemma: the recording is stopped exactly once, at the first tick
whose elapsed silence strictly exceeds `silenceDuration`, and every later
silent tick emits nothing further. -/
lemma runUp_silent_stop (cfg : Config) (s : VoiceState) (t0 : Nat) (v : ℚ)
    (hRec : RecordingActive s) (ht0 : 0 < t0) (hv : v < cfg.vadThreshold)
    (n : Nat) (hk : ∀ k, k ≤ n → 50 * k ≤ cfg.silenceDuration)
    (hgt : cfg.silenceDuration < 50 * (n + 1)) :
    ∀ m : Nat, runUp cfg s t0 v (n + 2 + m)
      = ({ s with volume := v, silenceStart := none, isSpeaking := false,
                  recorder := some RecState.inactive },
         [Event.stopRec]) := by
  obtain ⟨hen, hrec, hspk, hmr, hss⟩ := hRec
  have hprev := runUp_silent_pending cfg s t0 v ⟨hen, hrec, hspk, hmr, hss⟩
    ht0 hv n hk
  intro m
  induction m with
  | zero =>
    have h3 := vadTick_silent_stop cfg
      { s with volume := v, silenceStart := some t0 }
      (t0 + 50 * (n + 1)) v t0 hen hrec hspk rfl (by omega) hv (by omega) hmr
    rw [show n + 2 + 0 = (n + 1) + 1 by omega, runUp_succ, hprev]
    dsimp only
    rw [h3]
    simp
  | succ m ih =>
    have h4 := vadTick_post_stop cfg
      { s with volume := v, silenceStart := none, isSpeaking := false,
               recorder := some RecState.inactive }
      (t0 + 50 * (n + 2 + m)) v hrec rfl
    rw [show n + 2 + (m + 1) = (n + 2 + m) + 1 by omega, runUp_succ, ih]
    dsimp only
    rw [h4]
    simp

/-- C3 (amended): with 50 ms ticks from an eligible state, a continuous
above-threshold run never starts a recording while the time elapsed since
the first above-threshold sample is at most `speechMinDuration` — even when
it equals it exactly — and a following sub-threshold sample discards the
pending speech start; the recording starts exactly at the first tick whose
elapsed time strictly exceeds `speechMinDuration` (one tick later than the
claimed `≥ speechMinDuration` boundary). -/
theorem vad_debounce_strict (cfg : Config) (s : VoiceState) (t0 : Nat)
    (v vLow : ℚ) (n : Nat) (hR : Ready s t0) (ht0 : 0 < t0)
    (hv : cfg.vadThreshold < v) (hlow : ¬ cfg.vadThreshold < vLow)
    (hk : ∀ k, k ≤ n → 50 * k ≤ cfg.speechMinDuration) :
    (runUp cfg s t0 v (n + 1)).2 = [] ∧
    (vadTick cfg (runUp cfg s t0 v (n + 1)).1 (t0 + 50 * (n + 1)) vLow).2 = [] ∧
    (vadTick cfg (runUp cfg s t0 v (n + 1)).1 (t0 + 50 * (n + 1)) vLow).1.speechStart
        = none ∧
    (cfg.speechMinDuration < 50 * (n + 1) →
      (runUp cfg s t0 v (n + 2)).2 = [Event.startRec]) := by
  obtain ⟨hen, hrec, hspk, hss, hcd, hp, hsp⟩ := hR
  have hpend := runUp_above_pending cfg s t0 v ⟨hen, hrec, hspk, hss, hcd, hp, hsp⟩
    ht0 hv n hk
  have htail := vadTick_low_idle cfg
    { s with volume := v, silenceStart := none, speechStart := some t0 }
    (t0 + 50 * (n + 1)) vLow hen hrec
    (Nat.not_lt.mpr (hcd.trans (Nat.le_add_right t0 (50 * (n + 1))))) hp hsp hlow
  refine ⟨by rw [hpend], ?_, ?_, ?_⟩
  · rw [hpend]
    dsimp only
    rw [htail]
  · rw [hpend]
    dsimp only
    rw [htail]
  · intro hgt
    rw [runUp_above_start cfg s t0 v ⟨hen, hrec, hspk, hss, hcd, hp, hsp⟩
      ht0 hv n hk hgt]

/-- Witness for C3 at the default configuration: ticks at 100, 150, 200,
250 ms (elapsed exactly 150 ms) do not start, a low tail discards the
pending start, and the fifth tick (elapsed 200 ms) starts. -/
theorem vad_debounce_strict_witness :
    (runUp defaultConfig initState 100 (mkRat 1 10) (3 + 1)).2 = [] ∧
    (vadTick defaultConfig (runUp defaultConfig initState 100 (mkRat 1 10) (3 + 1)).1
        (100 + 50 * (3 + 1)) 0).2 = [] ∧
    (vadTick defaultConfig (runUp defaultConfig initState 100 (mkRat 1 10) (3 + 1)).1
        (100 + 50 * (3 + 1)) 0).1.speechStart = none ∧
    (defaultConfig.speechMinDuration < 50 * (3 + 1) →
      (runUp defaultConfig initState 100 (mkRat 1 10) (3 + 2)).2 = [Event.startRec]) :=
  vad_debounce_strict defaultConfig initState 100 (mkRat 1 10) 0 3
    (by unfold Ready; decide) (by decide) (by decide) (by decide) (by decide)

/-- C3 counterexample: at the default configuration (150 ms debounce,
50 ms ticks) the level stays above threshold for four consecutive ticks —
continuously above threshold for exactly `speechMinDuration` — yet no
recording starts; it starts only on the fifth tick, when the elapsed time
strictly exceeds `speechMinDuration`. -/
theorem vad_debounce_counterexample :
    (runUp defaultConfig initState 100 (mkRat 1 10) 4).2 = [] ∧
    defaultConfig.speechMinDuration ≤ 50 * (4 - 1) ∧
    (runUp defaultConfig initState 100 (mkRat 1 10) 5).2 = [Event.startRec] := by
  decide

/-- C7 (amended): once a hands-free recording is in progress, a continuous
sub-threshold run stops it exactly once — at the first 50 ms tick whose
elapsed silence strictly exceeds `silenceDuration` (one tick later than the
claimed `silenceDuration` boundary), with no further stop event on later
silent ticks; stopping with no recording in progress is a no-op and
stopping twice is idempotent. -/
theorem vad_silence_stop_strict (cfg : Config) (s : VoiceState) (t0 : Nat)
    (vLow : ℚ) (n m : Nat) (hRec : RecordingActive s) (ht0 : 0 < t0)
    (hlow : vLow < cfg.vadThreshold)
    (hk : ∀ k, k ≤ n → 50 * k ≤ cfg.silenceDuration)
    (hgt : cfg.silenceDuration < 50 * (n + 1)) :
    (runUp cfg s t0 vLow (n + 1)).2 = [] ∧
    (runUp cfg s t0 vLow (n + 2 + m)).2 = [Event.stopRec] ∧
    (∀ s' : VoiceState, s'.isRecording = false → stopRecInternal s' = (s', [])) ∧
    (∀ s' : VoiceState,
      stopRecInternal (stopRecInternal s').1 = ((stopRecInternal s').1, [])) := by
  refine ⟨?_, ?_, ?_, ?_⟩
  · rw [runUp_silent_pending cfg s t0 vLow hRec ht0 hlow n hk]
  · rw [runUp_silent_stop cfg s t0 vLow hRec ht0 hlow n hk hgt m]
  · intro s' h
    simp [stopRecInternal, h]
  · intro s'
    by_cases h1 : s'.isRecording
    · rcases hr : s'.recorder with _ | r
      · simp [stopRecInternal, h1, hr]
      · cases r
        · simp [stopRecInternal, h1, hr]
        · simp [stopRecInternal, h1, hr]
    · simp [stopRecInternal, h1]

/-- Witness for C7 at the default configuration: 31 silent ticks emit
nothing, the 32nd stops, and it stays stopped. -/
theorem vad_silence_stop_strict_witness :
    (runUp defaultConfig recInit 100 0 (30 + 1)).2 = [] ∧
    (runUp defaultConfig recInit 100 0 (30 + 2 + 0)).2 = [Event.stopRec] ∧
    (∀ s' : VoiceState, s'.isRecording = false → stopRecInternal s' = (s', [])) ∧
    (∀ s' : VoiceState,
      stopRecInternal (stopRecInternal s').1 = ((stopRecInternal s').1, [])) :=
  vad_silence_stop_strict defaultConfig recInit 100 0 30 0
    (by unfold RecordingActive; decide) (by decide) (by decide) (by decide) (by decide)

/-- C7 counterexample: at the default configuration (1500 ms silence
window, 50 ms ticks), 31 consecutive sub-threshold ticks — continuous
silence spanning exactly `silenceDuration` — do not stop the in-progress
recording; the stop fires only on the 32nd tick, when the elapsed silence
strictly exceeds `silenceDuration`. -/
theorem vad_silence_counterexample :
    (runUp defaultConfig recInit 100 0 31).2 = [] ∧
    defaultConfig.silenceDuration ≤ 50 * (31 - 1) ∧
    (runUp defaultConfig recInit 100 0 32).2 = [Event.stopRec] := by
  decide

/-- C9: the level sample — the square root of the mean of the squared
normalized analyser bytes — lies in [0,1] whenever every byte is at most
255, and with no analyser attached the sampled value is 0 (the function is
total: it never throws). -/
theorem getVolume_range (data : List Nat) (hb : ∀ b ∈ data, b ≤ 255)
    (hne : data ≠ []) :
    getVolumeSq none = 0 ∧
    Real.sqrt ((getVolumeSq none : ℚ) : ℝ) = 0 ∧
    0 ≤ Real.sqrt ((getVolumeSq (some data) : ℚ) : ℝ) ∧
    Real.sqrt ((getVolumeSq (some data) : ℚ) : ℝ) ≤ 1 := by
  have hlen : (0 : ℚ) < (data.length : ℚ) := by
    exact_mod_cast List.length_pos.mpr hne
  have h1 : ∀ x ∈ data.map (fun b : Nat => ((b : ℚ) / 255) ^ 2), x ≤ 1 := by
    intro x hx
    obtain ⟨b, hbmem, rfl⟩ := List.mem_map.mp hx
    have hb255 : (b : ℚ) ≤ 255 := by exact_mod_cast hb b hbmem
    have hdiv : (b : ℚ) / 255 ≤ 1 := by
      rw [div_le_one (by norm_num)]
      exact hb255
    exact pow_le_one₀ (by positivity) hdiv
  have h2 := List.sum_le_card_nsmul _ 1 h1
  simp only [List.length_map, nsmul_eq_mul, mul_one] at h2
  have hq : getVolumeSq (some data) ≤ 1 := by
    simp only [getVolumeSq]
    rw [div_le_one hlen]
    exact h2
  refine ⟨rfl, ?_, Real.sqrt_nonneg _, ?_⟩
  · have h0 : ((getVolumeSq none : ℚ) : ℝ) = 0 := by
      simp [getVolumeSq]
    rw [h0, Real.sqrt_zero]
  · rw [Real.sqrt_le_one]
    exact_mod_cast hq

/-- Witness for C9 on the two-byte buffer `[0, 255]`. -/
theorem getVolume_range_witness :
    getVolumeSq none = 0 ∧
    Real.sqrt ((getVolumeSq none : ℚ) : ℝ) = 0 ∧
    0 ≤ Real.sqrt ((getVolumeSq (some [0, 255]) : ℚ) : ℝ) ∧
    Real.sqrt ((getVolumeSq (some [0, 255]) : ℚ) : ℝ) ≤ 1 :=
  getVolume_range [0, 255] (by decide) (by decide)

/-- C8 counterexample: invoking `clear` on an active conversation does not
move the conversation state to `waiting` — it stays `active`. -/
theorem clear_keeps_active_counterexample :
    activeInit.conversationState = ConversationState.active ∧
    (clear activeInit).conversationState ≠ ConversationState.waiting := by
  decide

/-- C8 (amended): `clear` resets transcription, response, error, chat
history and the response accumulator, and leaves the conversation state
(and every other field) unchanged; it is not a trigger of the
`active → waiting` transition. -/
theorem clear_preserves_conversationState (s : VoiceState) :
    clear s = { s with transcription := "", response := "", error := none,
                       chatHistory := [], currentResponse := "" } ∧
    (clear s).conversationState = s.conversationState := by
  exact ⟨rfl, rfl⟩

/-- C10: `sendText` on non-blank text while the websocket is closed still
appends the user message, sets the transcription and clears the
accumulator, then fails fast: nothing is sent, the error message is set and
the status becomes `error`, with no rollback. -/
theorem sendText_disconnected (s : VoiceState) (now : Nat) (text : String)
    (hText : trimStr text ≠ "") (hWs : s.wsOpen = false) :
    (sendText s now text).1.chatHistory = s.chatHistory ++ [userMsg now text] ∧
    (sendText s now text).1.transcription = text ∧
    (sendText s now text).1.currentResponse = "" ∧
    (sendText s now text).1.response = "" ∧
    (sendText s now text).2 = [] ∧
    (sendText s now text).1.error = some "Not connected to server" ∧
    (sendText s now text).1.status = VoiceStatus.error := by
  simp [sendText, hText, hWs]

/-- Witness for C10 on the text "hi" from a disconnected session. -/
theorem sendText_disconnected_witness :
    (sendText { initState with wsOpen := false } 5 "hi").1.chatHistory
        = { initState with wsOpen := false }.chatHistory ++ [userMsg 5 "hi"] ∧
    (sendText { initState with wsOpen := false } 5 "hi").1.transcription = "hi" ∧
    (sendText { initState with wsOpen := false } 5 "hi").1.currentResponse = "" ∧
    (sendText { initState with wsOpen := false } 5 "hi").1.response = "" ∧
    (sendText { initState with wsOpen := false } 5 "hi").2 = [] ∧
    (sendText { initState with wsOpen := false } 5 "hi").1.error
        = some "Not connected to server" ∧
    (sendText { initState with wsOpen := false } 5 "hi").1.status = VoiceStatus.error :=
  sendText_disconnected { initState with wsOpen := false } 5 "hi" (by decide) rfl

end Voice
